import Mathlib

/-
A shallow embedding of the bukind/wasm Go package (wasm.go and its
near-identical companion file).  JavaScript values reached through syscall/js
are modelled by the inductive type JSValue: JavaScript numbers are modelled as
integers (the only numeric attribute the code reads is a DOM class-list
length) and objects as finite association lists of properties.  The syscall/js
accessors that panic when applied to a value of the wrong kind (Value.Get,
Value.Call, Value.Bool) are modelled in the Except JSPanic monad, so a Go
panic of the original code appears as an Except.error result.  Host-side
effects (method calls on host objects) are modelled either by an explicit
host oracle function or by returning the list of calls performed.
-/

namespace WasmModel

/-- Runtime kinds of a JavaScript value, modelling js.Type. -/
inductive JSType where
  | undefinedT
  | nullT
  | booleanT
  | numberT
  | stringT
  | objectT
  deriving DecidableEq, Repr

/-- A JavaScript value as seen through syscall/js (js.Value).  An object is a
finite property map, modelled as an association list in which the first
binding of a key wins. -/
inductive JSValue where
  | undef
  | null
  | boolean (b : Bool)
  | number (n : Int)
  | string (s : String)
  | object (props : List (String × JSValue))

/-- Kind of a value, modelling js.Value.Type. -/
def JSValue.typeOf : JSValue → JSType
  | .undef => .undefinedT
  | .null => .nullT
  | .boolean _ => .booleanT
  | .number _ => .numberT
  | .string _ => .stringT
  | .object _ => .objectT

/-- JavaScript truthiness, modelling js.Value.Truthy: undefined, null, false,
0 and the empty string are falsy, every other value is truthy. -/
def truthy : JSValue → Bool
  | .undef => false
  | .null => false
  | .boolean b => b
  | .number n => n != 0
  | .string s => s != ""
  | .object _ => true

/-- Textual form of a value, modelling js.Value.String, which is total (never
panics): string values render as themselves, all other kinds render as a
bracketed description. -/
def JSValue.display : JSValue → String
  | .undef => "<undefined>"
  | .null => "<null>"
  | .boolean b => "<boolean: " ++ (if b then "true" else "false") ++ ">"
  | .number n => "<number: " ++ toString n ++ ">"
  | .string s => s
  | .object _ => "<object>"

/-- Property lookup in an object's property list; an absent key reads as
undefined, as in JavaScript. -/
def getProp : List (String × JSValue) → String → JSValue
  | [], _ => .undef
  | (k, v) :: rest, key => if k = key then v else getProp rest key

/-- A panic raised by a syscall/js value accessor (js.ValueError), tagged with
the name of the accessor that raised it. -/
inductive JSPanic where
  | valueError (op : String)
  deriving DecidableEq, Repr

/-- Property read, modelling js.Value.Get: panics unless the receiver is of
object kind; on an object an absent property reads as undefined. -/
def jsGet (v : JSValue) (key : String) : Except JSPanic JSValue :=
  match v with
  | .object props => .ok (getProp props key)
  | _ => .error (.valueError "Value.Get")

/-- Escaping of one character as performed by the %q verb of fmt
(strconv.Quote), restricted to the escapes relevant here: the double quote and
the backslash; printable characters render as themselves. -/
def goEscape (c : Char) : String :=
  if c = '"' then "\\\""
  else if c = '\\' then "\\\\"
  else String.singleton c

/-- Quoted form of a string as produced by the %q verb of fmt. -/
def goQuote (s : String) : String :=
  "\"" ++ String.join (s.data.map goEscape) ++ "\""

/-- DocHolder.GetElementByID of wasm.go.  The host document's getElementById
call is modelled by the function lookup.  The Go pair (js.Value, error) is
modelled as a value paired with an optional error message: if the looked-up
element is not truthy the function returns js.Undefined() together with the
error "cannot find elt with id %q", otherwise the element with no error. -/
def GetElementByID (lookup : String → JSValue) (id : String) :
    JSValue × Option String :=
  let elt := lookup id
  if truthy elt then (elt, none)
  else (JSValue.undef, some ("cannot find elt with id " ++ goQuote id))

namespace WasmGo

/-- GetClassList of wasm.go: reads the classList property; if it is undefined,
returns it paired with 0; otherwise, if its length property is of number kind,
returns the class list paired with that length (whatever its sign); otherwise
returns undefined paired with 0.  Reading length panics when classList is
neither undefined nor of object kind. -/
def GetClassList (obj : JSValue) : Except JSPanic (JSValue × Int) := do
  let clist ← jsGet obj "classList"
  if clist.typeOf = JSType.undefinedT then
    return (clist, 0)
  else
    let lenv ← jsGet clist "length"
    match lenv with
    | .number n => return (clist, n)
    | _ => return (JSValue.undef, 0)

/-- Dbg of wasm.go: object-kind values render as an "<obj ...>" description
with optional id, type and cls segments; all other kinds render via
js.Value.String.  The cls segment is emitted when GetClassList reports a
positive length, and shows the class list's value property. -/
def Dbg (v : JSValue) : Except JSPanic String :=
  match v with
  | .object props => do
    let idv := getProp props "id"
    let s1 := if idv.typeOf ≠ JSType.undefinedT ∧ idv.display ≠ "" then
        " id=" ++ idv.display else ""
    let tv := getProp props "type"
    let s2 := if tv.typeOf ≠ JSType.undefinedT then " type=" ++ tv.display else ""
    let r ← GetClassList (JSValue.object props)
    let s3 ← if 0 < r.2 then do
        let valv ← jsGet r.1 "value"
        Except.ok (" cls=" ++ valv.display)
      else
        Except.ok ""
    Except.ok ("<obj" ++ s1 ++ s2 ++ s3 ++ ">")
  | w => Except.ok w.display

end WasmGo

/-- The closure passed to js.FuncOf inside NewEventListener.  It aborts with
nil (modelled as none) when the bound subject is not truthy, when the argument
count differs from one, or when the single argument is not truthy; otherwise
it evaluates the diagnostic trace line - Dbg of the subject, Dbg of the event,
the event's target property and its Dbg, in the evaluation order of the Go
call - and then returns the handler's result.  The event-name parameter evt
only feeds the log text, which does not affect the returned value. -/
def listenerCallback {α : Type} (evt : String) (fn : JSValue → JSValue → Option α)
    (subj : JSValue) (args : List JSValue) : Except JSPanic (Option α) :=
  if truthy subj = false then Except.ok none
  else
    match args with
    | [a] =>
      if truthy a = false then Except.ok none
      else do
        let _s1 ← WasmGo.Dbg subj
        let _s2 ← WasmGo.Dbg a
        let tgt ← jsGet a "target"
        let _s3 ← WasmGo.Dbg tgt
        let _evt := evt
        Except.ok (fn subj a)
    | _ => Except.ok none

/-- EventListener of wasm.go: an event name together with the js.Func produced
once by js.FuncOf at construction time.  The opaque native callable is
modelled by its allocation identifier (a natural number handed out by the
host), and its behaviour by the callback body. -/
structure EventListener (α : Type) where
  name : String
  fn : Nat
  body : JSValue → List JSValue → Except JSPanic (Option α)

/-- NewEventListener of wasm.go.  The parameter next is the host's next fresh
callable identifier; js.FuncOf allocates exactly one native callable, so the
constructor returns the listener holding identifier next and the advanced
allocator state next + 1. -/
def NewEventListener {α : Type} (evt : String) (handler : JSValue → JSValue → Option α)
    (next : Nat) : EventListener α × Nat :=
  (⟨evt, next, listenerCallback evt handler⟩, next + 1)

/-- Argument of a host method call: either an ordinary value or a native
callable identified by its allocation identifier (a js.Func argument). -/
inductive CallArg where
  | js (v : JSValue)
  | fn (f : Nat)

/-- One method invocation performed on a host object via js.Value.Call. -/
structure HostCall where
  recv : JSValue
  meth : String
  args : List CallArg

/-- EventListener.Add of wasm.go: formats the target with Dbg for the log
line, then calls addEventListener on the target with the stored event name
and the stored native callable.  The allocator state next is threaded through
unchanged because the body contains no js.FuncOf.  js.Value.Call panics when
the receiver is not of object kind. -/
def EventListener.Add {α : Type} (e : EventListener α) (elt : JSValue)
    (next : Nat) : Except JSPanic (List HostCall × Nat) := do
  let _s ← WasmGo.Dbg elt
  match elt with
  | .object _ =>
    Except.ok ([⟨elt, "addEventListener",
      [CallArg.js (JSValue.string e.name), CallArg.fn e.fn]⟩], next)
  | _ => Except.error (JSPanic.valueError "Value.Call")

/-- EventListener.Remove of wasm.go: formats the target with Dbg for the log
line, then calls removeEventListener on the target with the stored event name
and the stored native callable; no js.FuncOf is involved. -/
def EventListener.Remove {α : Type} (e : EventListener α) (elt : JSValue)
    (next : Nat) : Except JSPanic (List HostCall × Nat) := do
  let _s ← WasmGo.Dbg elt
  match elt with
  | .object _ =>
    Except.ok ([⟨elt, "removeEventListener",
      [CallArg.js (JSValue.string e.name), CallArg.fn e.fn]⟩], next)
  | _ => Except.error (JSPanic.valueError "Value.Call")

/-- Host model of one event target's listener registry, after the claim's
premise that removeEventListener with the same event name and callable undoes
the corresponding addEventListener: addEventListener registers the pair
(event name, callable identifier) unless an identical registration is already
present, removeEventListener erases the first matching registration, and a
native dispatch of an event invokes a callable exactly when the pair is
registered. -/
structure Target where
  listeners : List (String × Nat)

/-- Erase the first occurrence of a registration from a registry. -/
def removeFirst : List (String × Nat) → String × Nat → List (String × Nat)
  | [], _ => []
  | x :: xs, a => if x = a then xs else x :: removeFirst xs a

/-- Effect of addEventListener on the registry: a duplicate registration of an
identical (event, callable) pair is ignored. -/
def addListener (t : Target) (evt : String) (f : Nat) : Target :=
  if (evt, f) ∈ t.listeners then t else ⟨t.listeners ++ [(evt, f)]⟩

/-- Effect of removeEventListener on the registry. -/
def removeListener (t : Target) (evt : String) (f : Nat) : Target :=
  ⟨removeFirst t.listeners (evt, f)⟩

/-- Interpretation of one recorded host call on a target's registry; calls
other than addEventListener / removeEventListener leave it unchanged. -/
def applyCall (t : Target) (c : HostCall) : Target :=
  match c.meth, c.args with
  | "addEventListener", [CallArg.js (JSValue.string evt), CallArg.fn f] =>
    addListener t evt f
  | "removeEventListener", [CallArg.js (JSValue.string evt), CallArg.fn f] =>
    removeListener t evt f
  | _, _ => t

/-- Interpretation of a sequence of recorded host calls, first call first. -/
def applyCalls (t : Target) (cs : List HostCall) : Target :=
  cs.foldl applyCall t

/-- A native dispatch of event evt invokes callable f exactly when the pair is
registered on the target. -/
def dispatchInvokes (t : Target) (evt : String) (f : Nat) : Prop :=
  (evt, f) ∈ t.listeners

namespace Part000

/-- GetClassList of the companion file: the undefined value when the classList
property is undefined carries through; a class list whose length property is
a positive number is returned as is; anything else collapses to undefined.
Reading length panics when classList is neither undefined nor of object
kind. -/
def GetClassList (obj : JSValue) : Except JSPanic JSValue := do
  let clist ← jsGet obj "classList"
  if clist.typeOf = JSType.undefinedT then
    return clist
  else
    let lenv ← jsGet clist "length"
    match lenv with
    | .number n => if 0 < n then return clist else return JSValue.undef
    | _ => return JSValue.undef

/-- ClassList.Contains of the companion file.  In the unavailable (undefined)
state it returns false without touching the host; otherwise it performs the
native contains call, whose result the host oracle supplies, and converts it
with js.Value.Bool, which panics on a non-boolean. -/
def Contains (host : JSValue → String → List JSValue → JSValue)
    (c : JSValue) (s : String) : Except JSPanic Bool :=
  if c.typeOf = JSType.undefinedT then Except.ok false
  else
    match c with
    | .object _ =>
      match host c "contains" [JSValue.string s] with
      | .boolean b => Except.ok b
      | _ => Except.error (JSPanic.valueError "Value.Bool")
    | _ => Except.error (JSPanic.valueError "Value.Call")

/-- ClassList.Add of the companion file, returning the list of host calls it
performs: none in the unavailable state, one native add call otherwise. -/
def Add (c : JSValue) (s : String) : Except JSPanic (List HostCall) :=
  if c.typeOf = JSType.undefinedT then Except.ok []
  else
    match c with
    | .object _ => Except.ok [⟨c, "add", [CallArg.js (JSValue.string s)]⟩]
    | _ => Except.error (JSPanic.valueError "Value.Call")

/-- ClassList.Remove of the companion file, returning the list of host calls
it performs: none in the unavailable state, one native remove call
otherwise. -/
def Remove (c : JSValue) (s : String) : Except JSPanic (List HostCall) :=
  if c.typeOf = JSType.undefinedT then Except.ok []
  else
    match c with
    | .object _ => Except.ok [⟨c, "remove", [CallArg.js (JSValue.string s)]⟩]
    | _ => Except.error (JSPanic.valueError "Value.Call")

/-- ClassList.String of the companion file: the empty string in the
unavailable state, otherwise the textual form of the value property. -/
def StringRep (c : JSValue) : Except JSPanic String :=
  if c.typeOf = JSType.undefinedT then Except.ok ""
  else do
    let valv ← jsGet c "value"
    Except.ok valv.display

/-- Dbg of the companion file: identical to the wasm.go version except for the
cls segment, which it emits exactly when the ClassList.String rendering of the
class-list view is non-empty. -/
def Dbg (v : JSValue) : Except JSPanic String :=
  match v with
  | .object props => do
    let idv := getProp props "id"
    let s1 := if idv.typeOf ≠ JSType.undefinedT ∧ idv.display ≠ "" then
        " id=" ++ idv.display else ""
    let tv := getProp props "type"
    let s2 := if tv.typeOf ≠ JSType.undefinedT then " type=" ++ tv.display else ""
    let clist ← GetClassList (JSValue.object props)
    let cls ← StringRep clist
    let s3 := if cls ≠ "" then " cls=" ++ cls else ""
    Except.ok ("<obj" ++ s1 ++ s2 ++ s3 ++ ">")
  | w => Except.ok w.display

end Part000

/-- The id segment of a Dbg rendering: present exactly when the id property is
not undefined and its textual form is non-empty. -/
def idSegment (props : List (String × JSValue)) : String :=
  let idv := getProp props "id"
  if idv.typeOf ≠ JSType.undefinedT ∧ idv.display ≠ "" then " id=" ++ idv.display
  else ""

/-- The type segment of a Dbg rendering: present exactly when the type
property is not undefined. -/
def typeSegment (props : List (String × JSValue)) : String :=
  let tv := getProp props "type"
  if tv.typeOf ≠ JSType.undefinedT then " type=" ++ tv.display else ""

/-- The cls segment of the wasm.go Dbg rendering: present exactly when the
class list is an object whose length is a positive number; it then shows the
textual form of the class list's value property. -/
def clsSegmentW (props : List (String × JSValue)) : String :=
  match getProp props "classList" with
  | .object cprops =>
    match getProp cprops "length" with
    | .number n => if 0 < n then " cls=" ++ (getProp cprops "value").display else ""
    | _ => ""
  | _ => ""

/-- The cls segment of the companion file's Dbg rendering: as clsSegmentW, but
additionally suppressed when the value property renders as the empty
string. -/
def clsSegmentP (props : List (String × JSValue)) : String :=
  match getProp props "classList" with
  | .object cprops =>
    match getProp cprops "length" with
    | .number n =>
      if 0 < n then
        if (getProp cprops "value").display ≠ "" then
          " cls=" ++ (getProp cprops "value").display
        else ""
      else ""
    | _ => ""
  | _ => ""

/-- A classList property that makes both Dbg variants panic: present (not
undefined) but not of object kind, so that reading its length property
panics. -/
def classListIllFormed (props : List (String × JSValue)) : Bool :=
  match getProp props "classList" with
  | .undef => false
  | .object _ => false
  | _ => true

/-- The one input region where the two Dbg variants disagree: an object whose
class list is an object with a positive numeric length whose value property
renders as the empty string. -/
def clsEmptyAnomaly (v : JSValue) : Bool :=
  match v with
  | .object props =>
    match getProp props "classList" with
    | .object cprops =>
      match getProp cprops "length" with
      | .number n => decide (0 < n) && ((getProp cprops "value").display == "")
      | _ => false
    | _ => false
  | _ => false

/-- Closed form of wasm.go's Dbg on object-kind values with a well-formed
class-list property. -/
theorem wasm_dbg_obj_ok (props : List (String × JSValue))
    (h : classListIllFormed props = false) :
    WasmGo.Dbg (JSValue.object props) =
      Except.ok ("<obj" ++ idSegment props ++ typeSegment props ++
        clsSegmentW props ++ ">") := by
  unfold classListIllFormed at h
  unfold WasmGo.Dbg WasmGo.GetClassList idSegment typeSegment clsSegmentW
  cases hcl : getProp props "classList" with
  | undef => simp [hcl, jsGet, JSValue.typeOf, Bind.bind, Except.bind, pure, Except.pure]
  | object cprops =>
    cases hlen : getProp cprops "length" with
    | number n =>
      by_cases hn : 0 < n <;>
        simp [hcl, hlen, jsGet, JSValue.typeOf, hn, Bind.bind, Except.bind, pure, Except.pure]
    | _ => simp [hcl, hlen, jsGet, JSValue.typeOf, Bind.bind, Except.bind, pure, Except.pure]
  | _ => simp [hcl] at h

/-- Wasm.go's Dbg panics on an object whose classList property is present but
not of object kind. -/
theorem wasm_dbg_obj_panic (props : List (String × JSValue))
    (h : classListIllFormed props = true) :
    WasmGo.Dbg (JSValue.object props) =
      Except.error (JSPanic.valueError "Value.Get") := by
  unfold classListIllFormed at h
  unfold WasmGo.Dbg WasmGo.GetClassList
  cases hcl : getProp props "classList" <;>
    simp [hcl, jsGet, JSValue.typeOf, Bind.bind, Except.bind, pure, Except.pure] at h ⊢

/-- Closed form of the companion file's Dbg on object-kind values with a
well-formed class-list property. -/
theorem part_dbg_obj_ok (props : List (String × JSValue))
    (h : classListIllFormed props = false) :
    Part000.Dbg (JSValue.object props) =
      Except.ok ("<obj" ++ idSegment props ++ typeSegment props ++
        clsSegmentP props ++ ">") := by
  unfold classListIllFormed at h
  unfold Part000.Dbg Part000.GetClassList Part000.StringRep idSegment typeSegment clsSegmentP
  cases hcl : getProp props "classList" with
  | undef => simp [hcl, jsGet, JSValue.typeOf, Bind.bind, Except.bind, pure, Except.pure]
  | object cprops =>
    cases hlen : getProp cprops "length" with
    | number n =>
      by_cases hn : 0 < n <;>
        simp [hcl, hlen, jsGet, JSValue.typeOf, hn, Bind.bind, Except.bind, pure, Except.pure]
    | _ => simp [hcl, hlen, jsGet, JSValue.typeOf, Bind.bind, Except.bind, pure, Except.pure]
  | _ => simp [hcl] at h

/-- The companion file's Dbg panics on the same ill-formed class lists as the
wasm.go variant, with the same panic. -/
theorem part_dbg_obj_panic (props : List (String × JSValue))
    (h : classListIllFormed props = true) :
    Part000.Dbg (JSValue.object props) =
      Except.error (JSPanic.valueError "Value.Get") := by
  unfold classListIllFormed at h
  unfold Part000.Dbg Part000.GetClassList
  cases hcl : getProp props "classList" <;>
    simp [hcl, jsGet, JSValue.typeOf, Bind.bind, Except.bind, pure, Except.pure] at h ⊢

/-- Both Dbg variants render a non-object value via js.Value.String. -/
theorem dbg_nonobject (v : JSValue) (h : v.typeOf ≠ JSType.objectT) :
    WasmGo.Dbg v = Except.ok v.display ∧ Part000.Dbg v = Except.ok v.display := by
  cases v <;> simp [WasmGo.Dbg, Part000.Dbg, JSValue.typeOf] at h ⊢

/-- Outside the anomaly region the cls segments of the two Dbg variants
coincide. -/
theorem cls_segments_agree (props : List (String × JSValue))
    (h : clsEmptyAnomaly (JSValue.object props) = false) :
    clsSegmentW props = clsSegmentP props := by
  unfold clsEmptyAnomaly at h
  unfold clsSegmentW clsSegmentP
  cases hcl : getProp props "classList" <;> simp [hcl] at h ⊢
  case object cprops =>
    cases hlen : getProp cprops "length" <;> simp [hlen] at h ⊢
    case number m =>
      by_cases hm : 0 < m
      · simp [hm] at h ⊢
        simp [h]
      · simp [hm]

/-- Outside the anomaly region the two Dbg variants return identical results,
panics included. -/
theorem dbg_agree (v : JSValue) (h : clsEmptyAnomaly v = false) :
    WasmGo.Dbg v = Part000.Dbg v := by
  cases v with
  | object props =>
    cases hif : classListIllFormed props with
    | true => rw [wasm_dbg_obj_panic props hif, part_dbg_obj_panic props hif]
    | false =>
      rw [wasm_dbg_obj_ok props hif, part_dbg_obj_ok props hif,
        cls_segments_agree props h]
  | undef => rfl
  | null => rfl
  | boolean b => rfl
  | number n => rfl
  | string s => rfl

/-- Erasing a registration from a duplicate-free registry removes it from the
registry altogether. -/
theorem removeFirst_nodup_not_mem (l : List (String × Nat)) (a : String × Nat)
    (h : l.Nodup) : a ∉ removeFirst l a := by
  induction l with
  | nil => simp [removeFirst]
  | cons x xs ih =>
    rw [List.nodup_cons] at h
    unfold removeFirst
    by_cases hx : x = a
    · subst hx
      simpa using h.1
    · simp [hx]
      exact ⟨fun hax => hx hax.symm, ih h.2⟩

/-- addEventListener keeps the registry duplicate-free. -/
theorem addListener_nodup (t : Target) (evt : String) (f : Nat)
    (h : t.listeners.Nodup) : (addListener t evt f).listeners.Nodup := by
  unfold addListener
  by_cases hm : (evt, f) ∈ t.listeners <;>
    simp [hm, h, List.nodup_append]

/-- After addEventListener the registration is present. -/
theorem addListener_mem (t : Target) (evt : String) (f : Nat) :
    (evt, f) ∈ (addListener t evt f).listeners := by
  unfold addListener
  by_cases hm : (evt, f) ∈ t.listeners <;> simp [hm]

/-- C2: for every identifier whose host lookup yields a falsy value,
GetElementByID returns the error message "cannot find elt with id %q"
referencing the identifier; for a truthy lookup it returns the looked-up
value with no error; and a success result is never falsy. -/
theorem claim2_get_element_by_id (lookup : String → JSValue) (id : String) :
    (truthy (lookup id) = false →
      GetElementByID lookup id =
        (JSValue.undef, some ("cannot find elt with id " ++ goQuote id)))
    ∧ (truthy (lookup id) = true →
      GetElementByID lookup id = (lookup id, none))
    ∧ (∀ v, GetElementByID lookup id = (v, none) → truthy v = true) := by
  refine ⟨fun h => ?_, fun h => ?_, fun v hv => ?_⟩
  · simp [GetElementByID, h]
  · simp [GetElementByID, h]
  · by_cases h : truthy (lookup id)
    · simp [GetElementByID, h] at hv
      rw [← hv]
      exact h
    · simp [GetElementByID, h] at hv

/-- Witness for C2: a host whose lookup yields null produces the quoted
error, a host whose lookup yields an element returns it without error. -/
theorem claim2_get_element_by_id_witness :
    GetElementByID (fun _ => JSValue.null) "x" =
      (JSValue.undef, some ("cannot find elt with id " ++ goQuote "x"))
    ∧ goQuote "x" = "\"x\""
    ∧ GetElementByID (fun _ => JSValue.object []) "x" =
      (JSValue.object [], none) :=
  ⟨(claim2_get_element_by_id (fun _ => JSValue.null) "x").1 rfl,
   by decide,
   (claim2_get_element_by_id (fun _ => JSValue.object []) "x").2.1 rfl⟩

/-- C10: whenever GetElementByID reports an error, the value component of its
result is exactly the undefined value, independently of which falsy value the
host lookup produced. -/
theorem claim10_error_returns_undefined (lookup : String → JSValue)
    (id : String) (h : (GetElementByID lookup id).2.isSome = true) :
    (GetElementByID lookup id).1 = JSValue.undef := by
  by_cases ht : truthy (lookup id)
  · simp [GetElementByID, ht] at h
  · simp [GetElementByID, ht]

/-- Witness for C10: the host lookup yields null (falsy but distinct from
undefined), yet the error result carries undefined. -/
theorem claim10_error_returns_undefined_witness :
    (GetElementByID (fun _ => JSValue.null) "a").2.isSome = true
    ∧ (GetElementByID (fun _ => JSValue.null) "a").1 = JSValue.undef :=
  ⟨rfl, claim10_error_returns_undefined (fun _ => JSValue.null) "a" rfl⟩

/-- C3: on a class-list view in the unavailable state (underlying value
undefined), Contains is false for every name and every host behaviour,
String renders as empty, and Add and Remove perform no host call and do not
panic. -/
theorem claim3_classlist_unavailable (c : JSValue) (s : String)
    (h : c.typeOf = JSType.undefinedT) :
    (∀ host, Part000.Contains host c s = Except.ok false)
    ∧ Part000.StringRep c = Except.ok ""
    ∧ Part000.Add c s = Except.ok []
    ∧ Part000.Remove c s = Except.ok [] := by
  refine ⟨fun host => ?_, ?_, ?_, ?_⟩ <;>
    simp [Part000.Contains, Part000.StringRep, Part000.Add, Part000.Remove, h]

/-- Witness for C3 at the undefined view and the name "x". -/
theorem claim3_classlist_unavailable_witness :
    Part000.Contains (fun _ _ _ => JSValue.undef) JSValue.undef "x" =
      Except.ok false
    ∧ Part000.StringRep JSValue.undef = Except.ok ""
    ∧ Part000.Add JSValue.undef "x" = Except.ok []
    ∧ Part000.Remove JSValue.undef "x" = Except.ok [] :=
  ⟨(claim3_classlist_unavailable JSValue.undef "x" rfl).1 _,
   (claim3_classlist_unavailable JSValue.undef "x" rfl).2.1,
   (claim3_classlist_unavailable JSValue.undef "x" rfl).2.2.1,
   (claim3_classlist_unavailable JSValue.undef "x" rfl).2.2.2⟩

/-- C4 counterexample: on an element whose classList is present with numeric
length 0, the wasm.go accessor returns the actual class-list value (not the
undefined value) paired with 0, while an element without a classList yields
the undefined value paired with 0 - the two results differ in their value
component, so a present-but-empty class list is distinguishable from an
absent one in the returned view, contradicting the claim. -/
theorem claim4_counterexample :
    WasmGo.GetClassList
        (JSValue.object [("classList",
          JSValue.object [("length", JSValue.number 0)])])
      = Except.ok (JSValue.object [("length", JSValue.number 0)], 0)
    ∧ (JSValue.object [("length", JSValue.number 0)]).typeOf ≠
        JSType.undefinedT
    ∧ WasmGo.GetClassList (JSValue.object []) = Except.ok (JSValue.undef, 0) :=
  ⟨rfl, by decide, rfl⟩

/-- C4 (amended): the companion file's accessor returns the undefined
(unavailable) view whenever the classList property is undefined, has a
non-numeric length, or has a non-positive numeric length, and the class list
itself when the length is a positive number; the wasm.go accessor agrees on
the undefined and non-numeric cases (returning undefined paired with 0) but
on a present class list with non-positive numeric length returns the actual
class-list value paired with that length, so such a list is unavailable only
through its length component, not indistinguishable from an absent one. -/
theorem claim4_classlist_unavailable_state
    (props cprops : List (String × JSValue)) (n : Int) :
    ((getProp props "classList").typeOf = JSType.undefinedT →
      Part000.GetClassList (JSValue.object props) = Except.ok JSValue.undef
      ∧ WasmGo.GetClassList (JSValue.object props) =
          Except.ok (JSValue.undef, 0))
    ∧ (getProp props "classList" = JSValue.object cprops →
      (getProp cprops "length").typeOf ≠ JSType.numberT →
      Part000.GetClassList (JSValue.object props) = Except.ok JSValue.undef
      ∧ WasmGo.GetClassList (JSValue.object props) =
          Except.ok (JSValue.undef, 0))
    ∧ (getProp props "classList" = JSValue.object cprops →
      getProp cprops "length" = JSValue.number n → n ≤ 0 →
      Part000.GetClassList (JSValue.object props) = Except.ok JSValue.undef
      ∧ WasmGo.GetClassList (JSValue.object props) =
          Except.ok (JSValue.object cprops, n))
    ∧ (getProp props "classList" = JSValue.object cprops →
      getProp cprops "length" = JSValue.number n → 0 < n →
      Part000.GetClassList (JSValue.object props) =
          Except.ok (JSValue.object cprops)
      ∧ WasmGo.GetClassList (JSValue.object props) =
          Except.ok (JSValue.object cprops, n)) := by
  refine ⟨fun h1 => ?_, fun h1 h2 => ?_, fun h1 h2 h3 => ?_, fun h1 h2 h3 => ?_⟩
  · cases hcl : getProp props "classList" <;>
      simp [hcl, JSValue.typeOf] at h1 ⊢ <;>
      simp [Part000.GetClassList, WasmGo.GetClassList, jsGet, hcl,
        JSValue.typeOf, Bind.bind, Except.bind, pure, Except.pure]
  · cases hlen : getProp cprops "length" <;>
      simp [hlen, JSValue.typeOf] at h2 ⊢ <;>
      simp [Part000.GetClassList, WasmGo.GetClassList, jsGet, h1, hlen,
        JSValue.typeOf, Bind.bind, Except.bind, pure, Except.pure]
  · have hn : ¬ (0 : Int) < n := by omega
    simp [Part000.GetClassList, WasmGo.GetClassList, jsGet, h1, h2, hn,
      JSValue.typeOf, Bind.bind, Except.bind, pure, Except.pure]
  · simp [Part000.GetClassList, WasmGo.GetClassList, jsGet, h1, h2, h3,
      JSValue.typeOf, Bind.bind, Except.bind, pure, Except.pure]

/-- Witness for C4 (amended) at an absent class list, a present empty class
list, and a present two-element class list. -/
theorem claim4_classlist_unavailable_state_witness :
    (Part000.GetClassList (JSValue.object []) = Except.ok JSValue.undef
      ∧ WasmGo.GetClassList (JSValue.object []) = Except.ok (JSValue.undef, 0))
    ∧ (Part000.GetClassList (JSValue.object [("classList",
          JSValue.object [("length", JSValue.number 0)])]) =
          Except.ok JSValue.undef
      ∧ WasmGo.GetClassList (JSValue.object [("classList",
          JSValue.object [("length", JSValue.number 0)])]) =
          Except.ok (JSValue.object [("length", JSValue.number 0)], 0))
    ∧ (Part000.GetClassList (JSValue.object [("classList",
          JSValue.object [("length", JSValue.number 2)])]) =
          Except.ok (JSValue.object [("length", JSValue.number 2)])
      ∧ WasmGo.GetClassList (JSValue.object [("classList",
          JSValue.object [("length", JSValue.number 2)])]) =
          Except.ok (JSValue.object [("length", JSValue.number 2)], 2)) :=
  ⟨(claim4_classlist_unavailable_state [] [] 0).1 rfl,
   (claim4_classlist_unavailable_state
      [("classList", JSValue.object [("length", JSValue.number 0)])]
      [("length", JSValue.number 0)] 0).2.2.1 rfl rfl (by decide),
   (claim4_classlist_unavailable_state
      [("classList", JSValue.object [("length", JSValue.number 2)])]
      [("length", JSValue.number 2)] 2).2.2.2 rfl rfl (by decide)⟩

/-- C5 counterexample: on an object whose id property is null (present, but
not a string), wasm.go's Dbg still emits an id segment, rendered through the
value's textual form - the claim that the id segment appears only when the id
attribute is a non-empty string is therefore false. -/
theorem claim5_counterexample :
    WasmGo.Dbg (JSValue.object [("id", JSValue.null)]) =
      Except.ok "<obj id=<null>>"
    ∧ (getProp [("id", JSValue.null)] "id").typeOf ≠ JSType.stringT :=
  ⟨rfl, by decide⟩

/-- C5 (amended): for object-kind values with a well-formed class-list
property, Dbg renders "<obj" followed by the id segment (present exactly when
the id property is non-undefined and its textual form is non-empty - for a
string id, exactly when the string is non-empty), the type segment (present
exactly when the type property is non-undefined), and the cls segment
(present exactly when the class list is an object with positive numeric
length, showing its value property), then ">"; every non-object value renders
as its own textual form. -/
theorem claim5_dbg_format (v : JSValue) (props : List (String × JSValue)) :
    (v = JSValue.object props → classListIllFormed props = false →
      WasmGo.Dbg v =
        Except.ok ("<obj" ++ idSegment props ++ typeSegment props ++
          clsSegmentW props ++ ">"))
    ∧ (v.typeOf ≠ JSType.objectT → WasmGo.Dbg v = Except.ok v.display) := by
  constructor
  · rintro rfl h
    exact wasm_dbg_obj_ok props h
  · intro h
    exact (dbg_nonobject v h).1

/-- Witness for C5 (amended): the spec scenario - id "foo", no type, class
list value "bar" with length 1 - renders exactly as "<obj id=foo cls=bar>";
a string renders as itself. -/
theorem claim5_dbg_format_witness :
    WasmGo.Dbg (JSValue.object [("id", JSValue.string "foo"),
        ("classList", JSValue.object [("length", JSValue.number 1),
          ("value", JSValue.string "bar")])]) =
      Except.ok "<obj id=foo cls=bar>"
    ∧ WasmGo.Dbg (JSValue.string "hello") = Except.ok "hello" := by
  constructor
  · have h := (claim5_dbg_format
      (JSValue.object [("id", JSValue.string "foo"),
        ("classList", JSValue.object [("length", JSValue.number 1),
          ("value", JSValue.string "bar")])])
      [("id", JSValue.string "foo"),
        ("classList", JSValue.object [("length", JSValue.number 1),
          ("value", JSValue.string "bar")])]).1 rfl rfl
    rw [h]
    exact congrArg Except.ok (by decide)
  · exact (claim5_dbg_format (JSValue.string "hello") []).2 (by decide)

/-- C6 counterexample: an object whose classList property holds the number 1
makes both Dbg variants panic inside the class-list length lookup
(js.Value.Get on a non-object), so Dbg does not tolerate every malformed
value. -/
theorem claim6_counterexample :
    WasmGo.Dbg (JSValue.object [("classList", JSValue.number 1)]) =
      Except.error (JSPanic.valueError "Value.Get")
    ∧ Part000.Dbg (JSValue.object [("classList", JSValue.number 1)]) =
      Except.error (JSPanic.valueError "Value.Get") :=
  ⟨rfl, rfl⟩

/-- C6 (amended): both Dbg variants terminate and return a string on every
value except an object whose classList property is present (not undefined)
and not of object kind; on those the class-list length lookup panics.  All
other attribute lookups tolerate absence. -/
theorem claim6_dbg_total (v : JSValue)
    (h : ∀ props, v = JSValue.object props → classListIllFormed props = false) :
    (∃ s, WasmGo.Dbg v = Except.ok s) ∧ ∃ s, Part000.Dbg v = Except.ok s := by
  cases v with
  | object props =>
    exact ⟨⟨_, wasm_dbg_obj_ok props (h props rfl)⟩,
           ⟨_, part_dbg_obj_ok props (h props rfl)⟩⟩
  | undef => exact ⟨⟨_, rfl⟩, ⟨_, rfl⟩⟩
  | null => exact ⟨⟨_, rfl⟩, ⟨_, rfl⟩⟩
  | boolean b => exact ⟨⟨_, rfl⟩, ⟨_, rfl⟩⟩
  | number n => exact ⟨⟨_, rfl⟩, ⟨_, rfl⟩⟩
  | string s => exact ⟨⟨_, rfl⟩, ⟨_, rfl⟩⟩

/-- Witness for C6 (amended) at an object with an id but no classList. -/
theorem claim6_dbg_total_witness :
    (∃ s, WasmGo.Dbg (JSValue.object [("id", JSValue.string "a")]) =
      Except.ok s)
    ∧ ∃ s, Part000.Dbg (JSValue.object [("id", JSValue.string "a")]) =
      Except.ok s :=
  claim6_dbg_total _ (fun _ hp => by cases hp; rfl)

/-- C9 counterexample: on an object whose class list has numeric length 1 but
whose value property is the empty string, wasm.go's Dbg yields "<obj cls=>"
while the companion file's Dbg yields "<obj>", so the two implementations are
not behaviorally equivalent. -/
theorem claim9_counterexample :
    WasmGo.Dbg (JSValue.object [("classList",
        JSValue.object [("length", JSValue.number 1),
          ("value", JSValue.string "")])]) = Except.ok "<obj cls=>"
    ∧ Part000.Dbg (JSValue.object [("classList",
        JSValue.object [("length", JSValue.number 1),
          ("value", JSValue.string "")])]) = Except.ok "<obj>"
    ∧ "<obj cls=>" ≠ "<obj>" :=
  ⟨rfl, rfl, by decide⟩

/-- C9 (amended): the two Dbg variants return identical results (panics
included) on every value outside the anomaly region - an object whose class
list is available (positive numeric length) but whose value property renders
as the empty string, where wasm.go emits an empty " cls=" segment and the
companion file omits the segment.  The two GetClassList variants agree on
availability for every value: a positive length in the wasm.go variant comes
with the same class-list value the companion variant returns, and a
non-positive length means the companion variant returns the undefined
view. -/
theorem claim9_dbg_equivalence (v cl : JSValue) (n : Int) :
    (clsEmptyAnomaly v = false → WasmGo.Dbg v = Part000.Dbg v)
    ∧ (WasmGo.GetClassList v = Except.ok (cl, n) → 0 < n →
        Part000.GetClassList v = Except.ok cl)
    ∧ (WasmGo.GetClassList v = Except.ok (cl, n) → n ≤ 0 →
        Part000.GetClassList v = Except.ok JSValue.undef) := by
  refine ⟨fun h => dbg_agree v h, fun h hn => ?_, fun h hn => ?_⟩
  · cases v with
    | object props =>
      cases hcl : getProp props "classList" with
      | undef =>
        simp [WasmGo.GetClassList, jsGet, hcl, JSValue.typeOf,
          Bind.bind, Except.bind, pure, Except.pure] at h
        omega
      | object cprops =>
        cases hlen : getProp cprops "length" with
        | number m =>
          simp [WasmGo.GetClassList, jsGet, hcl, hlen, JSValue.typeOf,
            Bind.bind, Except.bind, pure, Except.pure] at h
          obtain ⟨h1, h2⟩ := h
          subst h1
          subst h2
          simp [Part000.GetClassList, jsGet, hcl, hlen, JSValue.typeOf,
            Bind.bind, Except.bind, pure, Except.pure, hn]
        | undef =>
          simp [WasmGo.GetClassList, jsGet, hcl, hlen, JSValue.typeOf,
            Bind.bind, Except.bind, pure, Except.pure] at h
          omega
        | null =>
          simp [WasmGo.GetClassList, jsGet, hcl, hlen, JSValue.typeOf,
            Bind.bind, Except.bind, pure, Except.pure] at h
          omega
        | boolean b =>
          simp [WasmGo.GetClassList, jsGet, hcl, hlen, JSValue.typeOf,
            Bind.bind, Except.bind, pure, Except.pure] at h
          omega
        | string s =>
          simp [WasmGo.GetClassList, jsGet, hcl, hlen, JSValue.typeOf,
            Bind.bind, Except.bind, pure, Except.pure] at h
          omega
        | object ps =>
          simp [WasmGo.GetClassList, jsGet, hcl, hlen, JSValue.typeOf,
            Bind.bind, Except.bind, pure, Except.pure] at h
          omega
      | null =>
        simp [WasmGo.GetClassList, jsGet, hcl, JSValue.typeOf,
          Bind.bind, Except.bind, pure, Except.pure] at h
      | boolean b =>
        simp [WasmGo.GetClassList, jsGet, hcl, JSValue.typeOf,
          Bind.bind, Except.bind, pure, Except.pure] at h
      | number m =>
        simp [WasmGo.GetClassList, jsGet, hcl, JSValue.typeOf,
          Bind.bind, Except.bind, pure, Except.pure] at h
      | string s =>
        simp [WasmGo.GetClassList, jsGet, hcl, JSValue.typeOf,
          Bind.bind, Except.bind, pure, Except.pure] at h
    | undef => simp [WasmGo.GetClassList, jsGet, Bind.bind, Except.bind] at h
    | null => simp [WasmGo.GetClassList, jsGet, Bind.bind, Except.bind] at h
    | boolean b => simp [WasmGo.GetClassList, jsGet, Bind.bind, Except.bind] at h
    | number m => simp [WasmGo.GetClassList, jsGet, Bind.bind, Except.bind] at h
    | string s => simp [WasmGo.GetClassList, jsGet, Bind.bind, Except.bind] at h
  · cases v with
    | object props =>
      cases hcl : getProp props "classList" with
      | undef =>
        simp [WasmGo.GetClassList, jsGet, hcl, JSValue.typeOf,
          Bind.bind, Except.bind, pure, Except.pure] at h
        simp [Part000.GetClassList, jsGet, hcl, JSValue.typeOf,
          Bind.bind, Except.bind, pure, Except.pure, ← h.1]
      | object cprops =>
        cases hlen : getProp cprops "length" with
        | number m =>
          simp [WasmGo.GetClassList, jsGet, hcl, hlen, JSValue.typeOf,
            Bind.bind, Except.bind, pure, Except.pure] at h
          obtain ⟨h1, h2⟩ := h
          have hm : ¬ (0 : Int) < m := by omega
          simp [Part000.GetClassList, jsGet, hcl, hlen, JSValue.typeOf,
            Bind.bind, Except.bind, pure, Except.pure, hm]
        | undef =>
          simp [Part000.GetClassList, jsGet, hcl, hlen, JSValue.typeOf,
            Bind.bind, Except.bind, pure, Except.pure]
        | null =>
          simp [Part000.GetClassList, jsGet, hcl, hlen, JSValue.typeOf,
            Bind.bind, Except.bind, pure, Except.pure]
        | boolean b =>
          simp [Part000.GetClassList, jsGet, hcl, hlen, JSValue.typeOf,
            Bind.bind, Except.bind, pure, Except.pure]
        | string s =>
          simp [Part000.GetClassList, jsGet, hcl, hlen, JSValue.typeOf,
            Bind.bind, Except.bind, pure, Except.pure]
        | object ps =>
          simp [Part000.GetClassList, jsGet, hcl, hlen, JSValue.typeOf,
            Bind.bind, Except.bind, pure, Except.pure]
      | null =>
        simp [WasmGo.GetClassList, jsGet, hcl, JSValue.typeOf,
          Bind.bind, Except.bind, pure, Except.pure] at h
      | boolean b =>
        simp [WasmGo.GetClassList, jsGet, hcl, JSValue.typeOf,
          Bind.bind, Except.bind, pure, Except.pure] at h
      | number m =>
        simp [WasmGo.GetClassList, jsGet, hcl, JSValue.typeOf,
          Bind.bind, Except.bind, pure, Except.pure] at h
      | string s =>
        simp [WasmGo.GetClassList, jsGet, hcl, JSValue.typeOf,
          Bind.bind, Except.bind, pure, Except.pure] at h
    | undef => simp [WasmGo.GetClassList, jsGet, Bind.bind, Except.bind] at h
    | null => simp [WasmGo.GetClassList, jsGet, Bind.bind, Except.bind] at h
    | boolean b => simp [WasmGo.GetClassList, jsGet, Bind.bind, Except.bind] at h
    | number m => simp [WasmGo.GetClassList, jsGet, Bind.bind, Except.bind] at h
    | string s => simp [WasmGo.GetClassList, jsGet, Bind.bind, Except.bind] at h

/-- Witness for C9 (amended): both Dbg variants agree on an object with only
an id, and a class list of length 2 is available through both accessors. -/
theorem claim9_dbg_equivalence_witness :
    WasmGo.Dbg (JSValue.object [("id", JSValue.string "a")]) =
      Part000.Dbg (JSValue.object [("id", JSValue.string "a")])
    ∧ Part000.GetClassList (JSValue.object [("classList",
        JSValue.object [("length", JSValue.number 2),
          ("value", JSValue.string "a b")])]) =
      Except.ok (JSValue.object [("length", JSValue.number 2),
          ("value", JSValue.string "a b")]) :=
  ⟨(claim9_dbg_equivalence (JSValue.object [("id", JSValue.string "a")])
      JSValue.undef 0).1 rfl,
   (claim9_dbg_equivalence (JSValue.object [("classList",
        JSValue.object [("length", JSValue.number 2),
          ("value", JSValue.string "a b")])])
      (JSValue.object [("length", JSValue.number 2),
          ("value", JSValue.string "a b")]) 2).2.1 rfl (by decide)⟩

/-- C1 counterexample: with a truthy subject and exactly one truthy event
argument that is a number, all three validations pass, yet the callable does
not invoke the handler and does not return nil: evaluating the trace line's
target lookup (js.Value.Get on a non-object) panics first, so the
"invokes the handler if all three validations hold" direction of the claim is
false. -/
theorem claim1_counterexample :
    truthy (JSValue.object []) = true
    ∧ [JSValue.number 1].length = 1
    ∧ truthy (JSValue.number 1) = true
    ∧ listenerCallback "click" (fun _ _ => some (0 : Nat))
        (JSValue.object []) [JSValue.number 1] =
        Except.error (JSPanic.valueError "Value.Get")
    ∧ (Except.error (JSPanic.valueError "Value.Get") :
        Except JSPanic (Option Nat)) ≠ Except.ok (some 0)
    ∧ (Except.error (JSPanic.valueError "Value.Get") :
        Except JSPanic (Option Nat)) ≠ Except.ok none :=
  ⟨rfl, rfl, rfl, rfl, fun h => Except.noConfusion h,
   fun h => Except.noConfusion h⟩

/-- C1 (amended): the callable returns nil without invoking the handler
whenever the subject is falsy, the argument count differs from one, or the
single argument is falsy; when all three validations hold AND the diagnostic
trace line evaluates without panicking (Dbg of the subject succeeds, Dbg of
the event succeeds, the event's target property is readable - in particular
the event is object-kind - and Dbg of that target succeeds), it invokes the
handler with (subject, event) and returns the handler's result.  The abort
results hold for every handler, so the handler is not consulted there. -/
theorem claim1_listener_callback {α : Type} (evt : String)
    (fn : JSValue → JSValue → Option α) (subj a tgt : JSValue)
    (args : List JSValue) (s1 s2 s3 : String) :
    (truthy subj = false → listenerCallback evt fn subj args = Except.ok none)
    ∧ (args.length ≠ 1 → listenerCallback evt fn subj args = Except.ok none)
    ∧ (args = [a] → truthy a = false →
        listenerCallback evt fn subj args = Except.ok none)
    ∧ (args = [a] → truthy subj = true → truthy a = true →
        WasmGo.Dbg subj = Except.ok s1 → WasmGo.Dbg a = Except.ok s2 →
        jsGet a "target" = Except.ok tgt → WasmGo.Dbg tgt = Except.ok s3 →
        listenerCallback evt fn subj args = Except.ok (fn subj a)) := by
  refine ⟨fun h => ?_, fun h => ?_, fun ha h => ?_, ?_⟩
  · simp [listenerCallback, h]
  · unfold listenerCallback
    by_cases hs : truthy subj = false
    · simp [hs]
    · simp [hs]
      cases args with
      | nil => rfl
      | cons x xs =>
        cases xs with
        | nil => simp at h
        | cons y ys => rfl
  · subst ha
    unfold listenerCallback
    by_cases hs : truthy subj = false <;> simp [hs, h]
  · rintro rfl hs ha hd1 hd2 hg hd3
    simp [listenerCallback, hs, ha, hd1, hd2, hg, hd3,
      Bind.bind, Except.bind]

/-- Witness for C1 (amended): a valid invocation on an object subject and an
object event returns the handler's result; a falsy subject yields nil. -/
theorem claim1_listener_callback_witness :
    listenerCallback "click" (fun _ _ => some (7 : Nat))
      (JSValue.object []) [JSValue.object []] = Except.ok (some 7)
    ∧ listenerCallback "click" (fun _ _ => some (7 : Nat))
      JSValue.undef [JSValue.object []] = Except.ok none :=
  ⟨(claim1_listener_callback "click" (fun _ _ => some (7 : Nat))
      (JSValue.object []) (JSValue.object []) JSValue.undef
      [JSValue.object []] "<obj>" "<obj>" "<undefined>").2.2.2
      rfl rfl rfl rfl rfl rfl rfl,
   (claim1_listener_callback "click" (fun _ _ => some (7 : Nat))
      JSValue.undef (JSValue.object []) JSValue.undef
      [JSValue.object []] "<obj>" "<obj>" "<undefined>").1 rfl⟩

/-- C7: construction allocates exactly one native callable (the allocator
advances by one and the listener stores the fresh identifier), and Add and
Remove pass exactly that stored callable and the stored event name to
addEventListener and removeEventListener on the target, threading the
allocator state through unchanged - no attach or detach creates a new
callable, so listener identity is preserved. -/
theorem claim7_listener_identity {α : Type} (evt : String)
    (handler : JSValue → JSValue → Option α) (k k2 k3 : Nat) (elt : JSValue)
    (s : String) (hdbg : WasmGo.Dbg elt = Except.ok s)
    (hobj : elt.typeOf = JSType.objectT) :
    (NewEventListener evt handler k).2 = k + 1
    ∧ (NewEventListener evt handler k).1.name = evt
    ∧ (NewEventListener evt handler k).1.fn = k
    ∧ EventListener.Add (NewEventListener evt handler k).1 elt k2 =
        Except.ok ([⟨elt, "addEventListener",
          [CallArg.js (JSValue.string evt), CallArg.fn k]⟩], k2)
    ∧ EventListener.Remove (NewEventListener evt handler k).1 elt k3 =
        Except.ok ([⟨elt, "removeEventListener",
          [CallArg.js (JSValue.string evt), CallArg.fn k]⟩], k3) := by
  cases elt with
  | object props =>
    refine ⟨rfl, rfl, rfl, ?_, ?_⟩ <;>
      simp [EventListener.Add, EventListener.Remove, NewEventListener,
        hdbg, Bind.bind, Except.bind]
  | undef => simp [JSValue.typeOf] at hobj
  | null => simp [JSValue.typeOf] at hobj
  | boolean b => simp [JSValue.typeOf] at hobj
  | number n => simp [JSValue.typeOf] at hobj
  | string str => simp [JSValue.typeOf] at hobj

/-- Witness for C7 at event "click", allocator state 5, and an empty-object
target. -/
theorem claim7_listener_identity_witness :
    (NewEventListener "click" (fun _ _ => (none : Option Unit)) 5).2 = 6
    ∧ EventListener.Add
        (NewEventListener "click" (fun _ _ => (none : Option Unit)) 5).1
        (JSValue.object []) 7 =
      Except.ok ([⟨JSValue.object [], "addEventListener",
        [CallArg.js (JSValue.string "click"), CallArg.fn 5]⟩], 7)
    ∧ EventListener.Remove
        (NewEventListener "click" (fun _ _ => (none : Option Unit)) 5).1
        (JSValue.object []) 8 =
      Except.ok ([⟨JSValue.object [], "removeEventListener",
        [CallArg.js (JSValue.string "click"), CallArg.fn 5]⟩], 8) :=
  ⟨(claim7_listener_identity "click" (fun _ _ => (none : Option Unit)) 5 7 8
      (JSValue.object []) "<obj>" rfl rfl).1,
   (claim7_listener_identity "click" (fun _ _ => (none : Option Unit)) 5 7 8
      (JSValue.object []) "<obj>" rfl rfl).2.2.2.1,
   (claim7_listener_identity "click" (fun _ _ => (none : Option Unit)) 5 7 8
      (JSValue.object []) "<obj>" rfl rfl).2.2.2.2⟩

/-- C8: under the host model in which removeEventListener with the same event
name and callable undoes the corresponding addEventListener (a registry
without duplicate registrations), running the host calls of Add and then
those of Remove of the same EventListener instance leaves the target's
registry without that (event, callable) registration, so a subsequent native
dispatch of the event does not invoke the wrapped handler. -/
theorem claim8_add_remove_round_trip {α : Type} (evt : String)
    (handler : JSValue → JSValue → Option α) (k k2 k3 : Nat) (elt : JSValue)
    (t : Target) (ca cr : List HostCall) (na nr : Nat)
    (hnd : t.listeners.Nodup)
    (hadd : EventListener.Add (NewEventListener evt handler k).1 elt k2 =
      Except.ok (ca, na))
    (hrem : EventListener.Remove (NewEventListener evt handler k).1 elt k3 =
      Except.ok (cr, nr)) :
    ¬ dispatchInvokes (applyCalls t (ca ++ cr)) evt
        (NewEventListener evt handler k).1.fn := by
  cases elt with
  | object props =>
    cases hd : WasmGo.Dbg (JSValue.object props) with
    | error p =>
      unfold EventListener.Add at hadd
      rw [hd] at hadd
      simp [Bind.bind, Except.bind] at hadd
    | ok s =>
      unfold EventListener.Add at hadd
      unfold EventListener.Remove at hrem
      rw [hd] at hadd hrem
      simp [Bind.bind, Except.bind] at hadd hrem
      rw [← hadd.1, ← hrem.1]
      show ¬ dispatchInvokes (applyCalls t ([_] ++ [_])) evt k
      unfold applyCalls
      simp [applyCall]
      unfold dispatchInvokes
      exact removeFirst_nodup_not_mem _ (evt, k)
        (addListener_nodup t evt k hnd)
  | undef =>
    unfold EventListener.Add at hadd
    simp [WasmGo.Dbg, Bind.bind, Except.bind] at hadd
  | null =>
    unfold EventListener.Add at hadd
    simp [WasmGo.Dbg, Bind.bind, Except.bind] at hadd
  | boolean b =>
    unfold EventListener.Add at hadd
    simp [WasmGo.Dbg, Bind.bind, Except.bind] at hadd
  | number n =>
    unfold EventListener.Add at hadd
    simp [WasmGo.Dbg, Bind.bind, Except.bind] at hadd
  | string str =>
    unfold EventListener.Add at hadd
    simp [WasmGo.Dbg, Bind.bind, Except.bind] at hadd

/-- Witness for C8: on an initially empty registry, applying the Add call and
then the Remove call of one listener leaves a registry on which dispatching
"click" does not reach the listener's callable. -/
theorem claim8_add_remove_round_trip_witness :
    ¬ dispatchInvokes (applyCalls ⟨[]⟩
        ([⟨JSValue.object [], "addEventListener",
            [CallArg.js (JSValue.string "click"), CallArg.fn 0]⟩] ++
         [⟨JSValue.object [], "removeEventListener",
            [CallArg.js (JSValue.string "click"), CallArg.fn 0]⟩]))
      "click"
      (NewEventListener "click" (fun _ _ => (none : Option Unit)) 0).1.fn :=
  claim8_add_remove_round_trip "click" (fun _ _ => (none : Option Unit))
    0 1 2 (JSValue.object []) ⟨[]⟩ _ _ 1 2 List.nodup_nil rfl rfl

end WasmModel
